import Mathlib

/-!
Shallow embedding of `src/infant_recon_runner.py` (class `InfantReconRunner`).

Effects are made explicit: the file system is a pair of boolean predicates
(`os.path.isdir` / `os.path.isfile`), the wall clock (timestamp, elapsed
seconds) and the subprocess are passed in as parameters, and fallible
operations return `Except` / `Option`.
-/

/-- File-system view used by `os.path.isdir` / `os.path.isfile`. -/
structure FS where
  isDir : String → Bool
  isFile : String → Bool

/-- Embedding of `posixpath.join` for two components, as `os.path.join` behaves on the
paths this script builds: an absolute second component wins; otherwise a
separator is inserted unless the first component is empty or already ends
with one. -/
def osPathJoin (a b : String) : String :=
  if b.data.head? = some '/' then b
  else if a = "" then b
  else if a.data.getLast? = some '/' then a ++ b
  else a ++ "/" ++ b

/-- The expected-outputs configuration (the YAML mapping the runner loads).
Dictionaries are modelled as association lists in insertion order.
`conditional_files` entries carry a section name, a condition string and a
directory-to-files mapping, following the shape of the default configuration. -/
structure Config where
  required_directories : List String
  required_files : List (String × List String)
  optional_files : List (String × List String)
  conditional_files : List (String × String × List (String × List String))
deriving DecidableEq, Repr

/-- Embedding of `InfantReconRunner.get_default_config`, verbatim from the
source. -/
def get_default_config : Config :=
  { required_directories := ["mri", "surf", "label", "stats", "log"]
  , required_files :=
      [ ("mri", ["norm.mgz", "aseg.mgz", "brain.mgz", "brainmask.mgz",
                 "norm.nii.gz", "aseg.nii.gz"])
      , ("surf", ["lh.white", "rh.white", "lh.orig", "rh.orig"])
      , ("label", [])
      , ("stats", [])
      , ("log", ["recon.log"])
      , (".", ["mprage.nii.gz"]) ]
  , optional_files :=
      [ ("mri", ["filled.mgz", "wm.mgz", "brain.finalsurfs.mgz"])
      , ("surf", ["lh.area", "rh.area", "lh.curv", "rh.curv",
                  "lh.inflated", "rh.inflated"])
      , ("work", []) ]
  , conditional_files :=
      [ ("surface_processing", "surfaces_generated",
         [("surf", ["lh.pial", "rh.pial", "lh.sphere", "rh.sphere"])]) ] }

/-- The dict returned by `InfantReconRunner.validate_outputs` (found/missing
sub-dicts flattened into named fields; the wall-clock `validation_timestamp`
is omitted). -/
structure ValidationResult where
  output_directory : String
  directory_exists : Bool
  required_directories_found : List String
  required_directories_missing : List String
  required_files_found : List String
  required_files_missing : List String
  optional_files_found : List String
  optional_files_missing : List String
  unexpected_files : List String
  total_required_files : Nat
  total_found_required : Nat
  validation_passed : Bool
  summary : String
deriving DecidableEq, Repr

/-- Flatten a directory-to-files mapping into (directory, file) pairs in
iteration order, as the nested `for` loops of `validate_outputs` visit them. -/
def filePairs (files : List (String × List String)) : List (String × String) :=
  files.flatMap (fun p => p.2.map (fun f => (p.1, f)))

/-- The path at which `validate_outputs` looks for a file: directly under the
output directory for the `.` key, under the named subdirectory otherwise. -/
def checkedFilePath (output_dir directory file_name : String) : String :=
  if directory = "." then osPathJoin output_dir file_name
  else osPathJoin (osPathJoin output_dir directory) file_name

/-- Embedding of `InfantReconRunner.validate_outputs`: early return when the output
directory is missing, otherwise existence checks for required directories,
required files and optional files, then the pass/fail aggregation and the
summary string. -/
def validate_outputs (cfg : Config) (fs : FS) (output_dir : String) :
    ValidationResult :=
  if fs.isDir output_dir then
    let dirsFound := cfg.required_directories.filter
      (fun d => fs.isDir (osPathJoin output_dir d))
    let dirsMissing := cfg.required_directories.filter
      (fun d => !(fs.isDir (osPathJoin output_dir d)))
    let reqPairs := filePairs cfg.required_files
    let reqFound := (reqPairs.filter
      (fun p => fs.isFile (checkedFilePath output_dir p.1 p.2))).map
      (fun p => p.1 ++ "/" ++ p.2)
    let reqMissing := (reqPairs.filter
      (fun p => !(fs.isFile (checkedFilePath output_dir p.1 p.2)))).map
      (fun p => p.1 ++ "/" ++ p.2)
    let optPairs := filePairs cfg.optional_files
    let optFound := (optPairs.filter
      (fun p => fs.isFile (checkedFilePath output_dir p.1 p.2))).map
      (fun p => p.1 ++ "/" ++ p.2)
    let optMissing := (optPairs.filter
      (fun p => !(fs.isFile (checkedFilePath output_dir p.1 p.2)))).map
      (fun p => p.1 ++ "/" ++ p.2)
    { output_directory := output_dir
    , directory_exists := true
    , required_directories_found := dirsFound
    , required_directories_missing := dirsMissing
    , required_files_found := reqFound
    , required_files_missing := reqMissing
    , optional_files_found := optFound
    , optional_files_missing := optMissing
    , unexpected_files := []
    , total_required_files := reqPairs.length
    , total_found_required := reqFound.length
    , validation_passed := dirsMissing.isEmpty && reqMissing.isEmpty
    , summary := "Found " ++ toString reqFound.length ++ "/" ++
        toString reqPairs.length ++ " required files, " ++
        toString dirsFound.length ++ " directories" }
  else
    { output_directory := output_dir
    , directory_exists := false
    , required_directories_found := []
    , required_directories_missing := []
    , required_files_found := []
    , required_files_missing := []
    , optional_files_found := []
    , optional_files_missing := []
    , unexpected_files := []
    , total_required_files := 0
    , total_found_required := 0
    , validation_passed := false
    , summary := "Output directory does not exist: " ++ output_dir }

/-- Characters on which the Python method `str.split()` splits. -/
def pyIsSpace (c : Char) : Bool :=
  c = ' ' || c = '\t' || c = '\n' || c = '\x0d' || c = '\x0b' || c = '\x0c'

/-- Accumulator-based splitter over the character list: `acc` holds the
characters of the token being read, in reverse. -/
def pySplitAux : List Char → List Char → List String
  | [], acc => if acc = [] then [] else [String.mk acc.reverse]
  | c :: cs, acc =>
      if pyIsSpace c then
        if acc = [] then pySplitAux cs []
        else String.mk acc.reverse :: pySplitAux cs []
      else pySplitAux cs (c :: acc)

/-- Behaviour of the Python method `str.split()` with no argument: split on
runs of whitespace, dropping empty tokens. -/
def pySplit (s : String) : List String :=
  pySplitAux s.data []

/-- The subject-name extraction inside
`InfantReconRunner.generate_unique_output_dir`: the token after the first
`-s`, and `unknown` when `-s` is absent (the `ValueError` branch) or has no
token after it. -/
def subjectName (cmd : String) : String :=
  let parts := pySplit cmd
  match parts.indexOf? "-s" with
  | none => "unknown"
  | some i => parts.getD (i + 1) "unknown"

/-- Embedding of `InfantReconRunner.generate_unique_output_dir` with `base_output_dir`
left at `None` (as `run_command` calls it): `cwd` stands for `os.getcwd()`
and `ts` for the `%Y%m%d_%H%M%S` timestamp drawn from the clock. -/
def generate_unique_output_dir (cmd ts cwd : String) : String :=
  osPathJoin (osPathJoin cwd "infant_recon_outputs")
    (subjectName cmd ++ "_" ++ ts)

/-- The token-list transformation inside
`InfantReconRunner.modify_command_for_unique_output`: replace the token after
the first `--outdir` when one exists, append `--outdir` and the directory
when the flag is absent, and leave the list unchanged when the first
`--outdir` is the last token. -/
def modify_parts (command uniq : String) : List String :=
  let parts := pySplit command
  if "--outdir" ∈ parts then
    let i := parts.indexOf "--outdir"
    if i + 1 < parts.length then parts.set (i + 1) uniq else parts
  else
    parts ++ ["--outdir", uniq]

/-- Embedding of `InfantReconRunner.modify_command_for_unique_output`: the
transformed
token list re-joined with single spaces. -/
def modify_command_for_unique_output (command uniq : String) : String :=
  String.intercalate " " (modify_parts command uniq)

/-- The final path component of a POSIX path: everything after the last
separator (the whole string when there is none). -/
def lastComponent (p : String) : String :=
  String.mk (p.data.foldl (fun acc c => if c = '/' then [] else acc ++ [c]) [])

/-- Outcome of the single `subprocess.run` call inside
`InfantReconRunner.run_command`: normal completion with a return code and
captured streams, `subprocess.TimeoutExpired`, or some other exception. -/
inductive ProcOutcome where
  | completed (returncode : Int) (stdout stderr : String)
  | timedOut
  | raised (msg : String)
deriving DecidableEq, Repr

/-- The result dict built by `InfantReconRunner.run_command` (the wall-clock
`start_time` / `end_time` fields are omitted; `execution_time_seconds` is
kept because the timeout branch assigns it the timeout value). -/
structure RunResult where
  command : String
  original_command : String
  output_directory : String
  success : Bool
  exit_code : Option Int
  stdout : String
  stderr : String
  execution_time_seconds : Nat
  timeout_occurred : Bool
  error_message : Option String
deriving DecidableEq, Repr

/-- Embedding of `InfantReconRunner.run_command`. The subprocess is an oracle `proc`
giving the outcome of the n-th invocation; the second component of the pair
counts how many invocations were made. Here `ts` is the clock timestamp in
`%Y%m%d_%H%M%S` format, `cwd` is `os.getcwd()`, and `elapsed` is the
measured wall-clock duration used outside the timeout branch. -/
def run_command (cmd : String) (timeout : Nat) (ts cwd : String)
    (elapsed : Nat) (proc : Nat → ProcOutcome) : RunResult × Nat :=
  let outdir := generate_unique_output_dir cmd ts cwd
  let modified := modify_command_for_unique_output cmd outdir
  let base : RunResult :=
    { command := modified
    , original_command := cmd
    , output_directory := outdir
    , success := false
    , exit_code := none
    , stdout := ""
    , stderr := ""
    , execution_time_seconds := 0
    , timeout_occurred := false
    , error_message := none }
  match proc 0 with
  | .completed rc out err =>
      ({ base with
          success := rc = 0
        , exit_code := some rc
        , stdout := out
        , stderr := err
        , execution_time_seconds := elapsed
        , error_message :=
            if rc = 0 then none
            else some ("Process exited with code " ++ toString rc) }, 1)
  | .timedOut =>
      ({ base with
          timeout_occurred := true
        , execution_time_seconds := timeout
        , error_message :=
            some ("Command timed out after " ++ toString timeout ++
              " seconds") }, 1)
  | .raised msg =>
      ({ base with
          execution_time_seconds := elapsed
        , error_message := some msg }, 1)

/-- The combined dict built by `InfantReconRunner.run_and_validate` (the
wall-clock `test_timestamp` is omitted). -/
structure CombinedResult where
  execution : RunResult
  validation : ValidationResult
  overall_success : Bool
deriving DecidableEq, Repr

/-- Embedding of `InfantReconRunner.run_and_validate`: run the command, validate the
outputs of its output directory unconditionally, and combine. -/
def run_and_validate (cfg : Config) (fs : FS) (cmd : String) (timeout : Nat)
    (ts cwd : String) (elapsed : Nat) (proc : Nat → ProcOutcome) :
    CombinedResult :=
  let er := (run_command cmd timeout ts cwd elapsed proc).1
  let vr := validate_outputs cfg fs er.output_directory
  { execution := er
  , validation := vr
  , overall_success := er.success && vr.validation_passed }

/-- Outcome of the Python builtin `open` on the configuration path: success
with the file content, `FileNotFoundError`, or any other `OSError` (such as
`IsADirectoryError` or `PermissionError`), which `load_config` does not
catch. -/
inductive OpenResult where
  | ok (content : String)
  | fileNotFound
  | otherError (msg : String)
deriving DecidableEq, Repr

/-- Outcome of `yaml.safe_load` on the file content: a parsed
configuration, or a `yaml.YAMLError`. -/
inductive YamlResult where
  | ok (cfg : Config)
  | yamlError (msg : String)
deriving DecidableEq, Repr

/-- The ambient I/O behaviour `load_config` interacts with: what opening a
path yields and what parsing a content string yields. -/
structure IOEnv where
  openFile : String → OpenResult
  parseYaml : String → YamlResult

/-- Embedding of `InfantReconRunner.load_config`: parsed configuration on success, the
default configuration on `FileNotFoundError` or `yaml.YAMLError`, and a
propagated exception (`Except.error`) on any other error. -/
def load_config (env : IOEnv) (path : String) : Except String Config :=
  match env.openFile path with
  | .ok content =>
      match env.parseYaml content with
      | .ok cfg => .ok cfg
      | .yamlError _ => .ok get_default_config
  | .fileNotFound => .ok get_default_config
  | .otherError e => .error e

/-- Embedding of `InfantReconRunner.__init__`: constructing the runner just runs
`load_config` on the configuration path, so it fails exactly when
`load_config` does. -/
def mkInfantReconRunner (env : IOEnv) (config_file : String) :
    Except String (String × Config) :=
  (load_config env config_file).map (fun cfg => (config_file, cfg))

/-- One entry of the results handed to `generate_report`: a dict on which
`r.get` with key `overall_success` and default `False` is called, so the
field may be absent. -/
structure TestResult where
  overall_success : Option Bool
deriving DecidableEq, Repr

/-- The report dict built by `InfantReconRunner.generate_report` (the
wall-clock `report_timestamp` is omitted). -/
structure Report where
  total_tests : Nat
  passed_tests : Nat
  failed_tests : Nat
  test_details : List TestResult
deriving DecidableEq, Repr

/-- Embedding of `InfantReconRunner.generate_report` on a results list: the report is
built, then the success-rate print divides `passed_tests` by `total_tests`,
which raises `ZeroDivisionError` on an empty list — modelled as `none`. -/
def generate_report (results : List TestResult) : Option Report :=
  let report : Report :=
    { total_tests := results.length
    , passed_tests := results.countP (fun r => r.overall_success.getD false)
    , failed_tests := results.countP (fun r => !(r.overall_success.getD false))
    , test_details := results }
  if results.length = 0 then none else some report

/-- The argument `generate_report` accepts: a single result dict or a list
of them. -/
inductive ResultsArg where
  | single (r : TestResult)
  | many (rs : List TestResult)
deriving DecidableEq, Repr

/-- The `isinstance(results, list)` wrapping at the top of
`generate_report`: a non-list argument becomes a one-element list. -/
def wrapResults : ResultsArg → List TestResult
  | .single r => [r]
  | .many rs => rs

/-- Entry point of `generate_report` as called: wrap the argument, then build the report. -/
def generate_report_arg (a : ResultsArg) : Option Report :=
  generate_report (wrapResults a)

/-! ## Concrete environments used by witnesses and counterexamples -/

/-- A file system in which nothing exists. -/
def fsNothing : FS :=
  { isDir := fun _ => false, isFile := fun _ => false }

/-- Directories present in the complete sample output tree. -/
def sampleDirs : List String :=
  ["/out", "/out/mri", "/out/surf", "/out/label", "/out/stats", "/out/log"]

/-- Files present in the complete sample output tree: exactly the required
files of the default configuration. -/
def sampleReqFiles : List String :=
  ["/out/mri/norm.mgz", "/out/mri/aseg.mgz", "/out/mri/brain.mgz",
   "/out/mri/brainmask.mgz", "/out/mri/norm.nii.gz", "/out/mri/aseg.nii.gz",
   "/out/surf/lh.white", "/out/surf/rh.white", "/out/surf/lh.orig",
   "/out/surf/rh.orig", "/out/log/recon.log", "/out/mprage.nii.gz"]

/-- Sample output tree holding every required file of the default
configuration but no conditional file. -/
def fsNoPial : FS :=
  { isDir := fun p => sampleDirs.contains p
  , isFile := fun p => sampleReqFiles.contains p }

/-- The same tree as `fsNoPial` with the conditional file `surf/lh.pial`
added. -/
def fsWithPial : FS :=
  { isDir := fun p => sampleDirs.contains p
  , isFile := fun p => sampleReqFiles.contains p || p = "/out/surf/lh.pial" }

/-! ## C6: early return when the output directory is missing -/

/-- Claim C6: when the output directory does not exist, `validate_outputs`
returns immediately with `directory_exists = false`,
`validation_passed = false`, every found/missing list empty,
`total_required_files = 0` and a summary saying the directory does not
exist; the result does not depend on the configuration or on any other
file-system query, so no per-directory or per-file check happens. -/
theorem validate_outputs_missing_dir_spec (cfg : Config) (fs : FS)
    (output_dir : String) (h : fs.isDir output_dir = false) :
    validate_outputs cfg fs output_dir =
      { output_directory := output_dir
      , directory_exists := false
      , required_directories_found := []
      , required_directories_missing := []
      , required_files_found := []
      , required_files_missing := []
      , optional_files_found := []
      , optional_files_missing := []
      , unexpected_files := []
      , total_required_files := 0
      , total_found_required := 0
      , validation_passed := false
      , summary := "Output directory does not exist: " ++ output_dir } := by
  simp [validate_outputs, h]

/-- Witness for C6 at a concrete configuration, file system and path. -/
theorem validate_outputs_missing_dir_witness :
    fsNothing.isDir "/missing" = false ∧
    validate_outputs get_default_config fsNothing "/missing" =
      { output_directory := "/missing"
      , directory_exists := false
      , required_directories_found := []
      , required_directories_missing := []
      , required_files_found := []
      , required_files_missing := []
      , optional_files_found := []
      , optional_files_missing := []
      , unexpected_files := []
      , total_required_files := 0
      , total_found_required := 0
      , validation_passed := false
      , summary := "Output directory does not exist: " ++ "/missing" } :=
  ⟨rfl, validate_outputs_missing_dir_spec get_default_config fsNothing
    "/missing" rfl⟩

/-! ## C2: conditional files are never checked -/

/-- Counterexample to claim C2: the default configuration lists `lh.pial`
under `surf` in its `conditional_files` section, yet `validate_outputs`
produces the very same result whether or not that file exists, and passes
while the file is absent — conditional files are not checked for existence
and are not reflected in the validation result. -/
theorem validate_outputs_conditional_cex :
    get_default_config.conditional_files =
      [("surface_processing", "surfaces_generated",
        [("surf", ["lh.pial", "rh.pial", "lh.sphere", "rh.sphere"])])] ∧
    fsNoPial.isFile "/out/surf/lh.pial" = false ∧
    fsWithPial.isFile "/out/surf/lh.pial" = true ∧
    validate_outputs get_default_config fsNoPial "/out" =
      validate_outputs get_default_config fsWithPial "/out" ∧
    (validate_outputs get_default_config fsNoPial "/out").validation_passed
      = true := by
  refine ⟨rfl, rfl, rfl, ?_, ?_⟩ <;> decide

/-- Claim C2 as amended: `validate_outputs` ignores the `conditional_files`
section of the configuration entirely — replacing it by any other value
(in particular in the default configuration, whose `surface_processing`
entry lists `lh.pial`, `rh.pial`, `lh.sphere` and `rh.sphere` under
`surf`) leaves the validation result unchanged, so the files listed there
are never checked during validation. -/
theorem validate_outputs_conditional_ignored (cfg : Config) (fs : FS)
    (output_dir : String)
    (cf : List (String × String × List (String × List String))) :
    validate_outputs { cfg with conditional_files := cf } fs output_dir =
      validate_outputs cfg fs output_dir := rfl

/-! ## C7: load_config error handling -/

/-- Environment in which opening the configuration path raises an `OSError`
other than `FileNotFoundError`, as Python `open` does when the path is a
directory. -/
def envIsADir : IOEnv :=
  { openFile := fun _ => OpenResult.otherError "IsADirectoryError"
  , parseYaml := fun _ => YamlResult.ok get_default_config }

/-- Environment in which the configuration file is missing. -/
def envNoFile : IOEnv :=
  { openFile := fun _ => OpenResult.fileNotFound
  , parseYaml := fun _ => YamlResult.yamlError "unused" }

/-- Counterexample to claim C7: constructing the runner can fail because of
the configuration file — when opening the path raises an error other than
`FileNotFoundError` (here `IsADirectoryError`), `load_config` catches
neither it nor returns a default, and the exception propagates out of
`__init__`. -/
theorem load_config_total_cex :
    load_config envIsADir "expected_outputs.yaml" =
      Except.error "IsADirectoryError" ∧
    mkInfantReconRunner envIsADir "expected_outputs.yaml" =
      Except.error "IsADirectoryError" := ⟨rfl, rfl⟩

/-- Claim C7 as amended: `load_config` returns the parsed YAML mapping when
the file opens and parses, and returns the built-in default configuration
(whose `required_directories` are `mri`, `surf`, `label`, `stats`, `log`)
both when the file is missing (`FileNotFoundError`) and when parsing
raises `yaml.YAMLError`; any other error while opening the file is not
caught and propagates, so construction fails in exactly those cases. -/
theorem load_config_spec (env : IOEnv) (path : String) :
    (∀ c cfg, env.openFile path = OpenResult.ok c →
        env.parseYaml c = YamlResult.ok cfg →
        load_config env path = Except.ok cfg) ∧
    (∀ c e, env.openFile path = OpenResult.ok c →
        env.parseYaml c = YamlResult.yamlError e →
        load_config env path = Except.ok get_default_config) ∧
    (env.openFile path = OpenResult.fileNotFound →
        load_config env path = Except.ok get_default_config) ∧
    (∀ e, env.openFile path = OpenResult.otherError e →
        load_config env path = Except.error e) ∧
    get_default_config.required_directories =
      ["mri", "surf", "label", "stats", "log"] := by
  refine ⟨?_, ?_, ?_, ?_, rfl⟩ <;> intros <;> simp [load_config, *]

/-- Witness for C7 (amended) at a concrete environment: the file is missing
and the default configuration is returned. -/
theorem load_config_witness :
    envNoFile.openFile "expected_outputs.yaml" = OpenResult.fileNotFound ∧
    load_config envNoFile "expected_outputs.yaml" =
      Except.ok get_default_config :=
  ⟨rfl, (load_config_spec envNoFile "expected_outputs.yaml").2.2.1 rfl⟩

/-! ## C8: run_and_validate always validates -/

/-- Claim C8: `run_and_validate` always performs output validation on the
output directory of the execution result — the subprocess oracle is
universally quantified, so this covers completion with any exit code,
timeout and a raised exception — and `overall_success` holds exactly when
the execution succeeded and the validation passed. -/
theorem run_and_validate_spec (cfg : Config) (fs : FS) (cmd : String)
    (timeout : Nat) (ts cwd : String) (elapsed : Nat)
    (proc : Nat → ProcOutcome) :
    (run_and_validate cfg fs cmd timeout ts cwd elapsed proc).validation =
      validate_outputs cfg fs
        ((run_and_validate cfg fs cmd timeout ts cwd elapsed
          proc).execution.output_directory) ∧
    ((run_and_validate cfg fs cmd timeout ts cwd elapsed
        proc).overall_success = true ↔
      ((run_and_validate cfg fs cmd timeout ts cwd elapsed
          proc).execution.success = true ∧
       (run_and_validate cfg fs cmd timeout ts cwd elapsed
          proc).validation.validation_passed = true)) := by
  refine ⟨rfl, ?_⟩
  simp [run_and_validate]

/-! ## C3: run_command on normal completion -/

/-- Claim C3: when the spawned subprocess completes within the timeout,
`run_command` reports exactly the return code of the process and its
captured standard output and standard error, `success` holds exactly when
the return code is 0, and `error_message` is a non-`none` message exactly
when the return code is non-zero. -/
theorem run_command_completed_spec (cmd : String) (timeout : Nat)
    (ts cwd : String) (elapsed : Nat) (proc : Nat → ProcOutcome)
    (rc : Int) (out err : String)
    (h : proc 0 = ProcOutcome.completed rc out err) :
    (run_command cmd timeout ts cwd elapsed proc).1.exit_code = some rc ∧
    (run_command cmd timeout ts cwd elapsed proc).1.stdout = out ∧
    (run_command cmd timeout ts cwd elapsed proc).1.stderr = err ∧
    ((run_command cmd timeout ts cwd elapsed proc).1.success = true ↔
      rc = 0) ∧
    ((run_command cmd timeout ts cwd elapsed proc).1.error_message ≠ none ↔
      rc ≠ 0) := by
  refine ⟨?_, ?_, ?_, ?_, ?_⟩
  · simp [run_command, h]
  · simp [run_command, h]
  · simp [run_command, h]
  · simp [run_command, h]
  · by_cases h0 : rc = 0 <;> simp [run_command, h, h0]

/-- A subprocess oracle that completes at once with a failing exit code. -/
def procExit3 : Nat → ProcOutcome :=
  fun _ => ProcOutcome.completed 3 "partial output" "boom"

/-- Witness for C3 at a concrete command and a process exiting with code 3. -/
theorem run_command_completed_witness :
    procExit3 0 = ProcOutcome.completed 3 "partial output" "boom" ∧
    ((run_command "infant_recon_all -s sub-01" 3600 "20240101_120000"
        "/work" 5 procExit3).1.exit_code = some 3 ∧
     (run_command "infant_recon_all -s sub-01" 3600 "20240101_120000"
        "/work" 5 procExit3).1.stdout = "partial output" ∧
     (run_command "infant_recon_all -s sub-01" 3600 "20240101_120000"
        "/work" 5 procExit3).1.stderr = "boom" ∧
     ((run_command "infant_recon_all -s sub-01" 3600 "20240101_120000"
        "/work" 5 procExit3).1.success = true ↔ (3 : Int) = 0) ∧
     ((run_command "infant_recon_all -s sub-01" 3600 "20240101_120000"
        "/work" 5 procExit3).1.error_message ≠ none ↔ (3 : Int) ≠ 0)) :=
  ⟨rfl, run_command_completed_spec "infant_recon_all -s sub-01" 3600
    "20240101_120000" "/work" 5 procExit3 3 "partial output" "boom" rfl⟩

/-! ## C4: run_command on timeout -/

/-- Claim C4: when the subprocess raises `TimeoutExpired`, `run_command`
invoked the subprocess exactly once (the invocation count is 1 and the
result depends only on the first oracle answer — no retry), swallows the
exception and returns a result with `timeout_occurred = true`,
`success = false`, `exit_code = none`, `execution_time_seconds` equal to
the timeout, and the message that the command timed out after that many
seconds. -/
theorem run_command_timeout_spec (cmd : String) (timeout : Nat)
    (ts cwd : String) (elapsed : Nat) (proc : Nat → ProcOutcome)
    (h : proc 0 = ProcOutcome.timedOut) :
    (run_command cmd timeout ts cwd elapsed proc).2 = 1 ∧
    (∀ proc2 : Nat → ProcOutcome, proc2 0 = proc 0 →
      run_command cmd timeout ts cwd elapsed proc2 =
        run_command cmd timeout ts cwd elapsed proc) ∧
    (run_command cmd timeout ts cwd elapsed proc).1.timeout_occurred
      = true ∧
    (run_command cmd timeout ts cwd elapsed proc).1.success = false ∧
    (run_command cmd timeout ts cwd elapsed proc).1.exit_code = none ∧
    (run_command cmd timeout ts cwd elapsed proc).1.execution_time_seconds
      = timeout ∧
    (run_command cmd timeout ts cwd elapsed proc).1.error_message =
      some ("Command timed out after " ++ toString timeout ++
        " seconds") := by
  refine ⟨?_, ?_, ?_, ?_, ?_, ?_, ?_⟩
  · simp only [run_command, h]
  · intro proc2 h2
    simp only [run_command, h2]
  · simp only [run_command, h]
  · simp only [run_command, h]
  · simp only [run_command, h]
  · simp only [run_command, h]
  · simp only [run_command, h]

/-- A subprocess oracle that always times out. -/
def procTimesOut : Nat → ProcOutcome := fun _ => ProcOutcome.timedOut

/-- Witness for C4 at a concrete command and timeout 60. -/
theorem run_command_timeout_witness :
    procTimesOut 0 = ProcOutcome.timedOut ∧
    ((run_command "infant_recon_all -s sub-02" 60 "20240101_120000"
        "/work" 7 procTimesOut).2 = 1 ∧
     (∀ proc2 : Nat → ProcOutcome, proc2 0 = procTimesOut 0 →
       run_command "infant_recon_all -s sub-02" 60 "20240101_120000"
           "/work" 7 proc2 =
         run_command "infant_recon_all -s sub-02" 60 "20240101_120000"
           "/work" 7 procTimesOut) ∧
     (run_command "infant_recon_all -s sub-02" 60 "20240101_120000"
        "/work" 7 procTimesOut).1.timeout_occurred = true ∧
     (run_command "infant_recon_all -s sub-02" 60 "20240101_120000"
        "/work" 7 procTimesOut).1.success = false ∧
     (run_command "infant_recon_all -s sub-02" 60 "20240101_120000"
        "/work" 7 procTimesOut).1.exit_code = none ∧
     (run_command "infant_recon_all -s sub-02" 60 "20240101_120000"
        "/work" 7 procTimesOut).1.execution_time_seconds = 60 ∧
     (run_command "infant_recon_all -s sub-02" 60 "20240101_120000"
        "/work" 7 procTimesOut).1.error_message =
       some ("Command timed out after " ++ toString 60 ++ " seconds")) :=
  ⟨rfl, run_command_timeout_spec "infant_recon_all -s sub-02" 60
    "20240101_120000" "/work" 7 procTimesOut rfl⟩

/-! ## C10: generate_report on non-empty input -/

/-- Claim C10: on a non-empty results list (a single non-list result being
wrapped into a one-element list first), `generate_report` returns a report
whose `total_tests` is the number of results, whose `passed_tests` counts
exactly the results with a true `overall_success`, and whose
`failed_tests` complements it so that passed + failed = total; the
success-rate computation divides by `total_tests`, so the empty list is
outside this precondition (modelled by `generate_report [] = none`). -/
theorem generate_report_spec (a : ResultsArg) (h : wrapResults a ≠ []) :
    generate_report_arg a = some
      { total_tests := (wrapResults a).length
      , passed_tests := (wrapResults a).countP
          (fun r => r.overall_success.getD false)
      , failed_tests := (wrapResults a).countP
          (fun r => !(r.overall_success.getD false))
      , test_details := wrapResults a } ∧
    (wrapResults a).countP (fun r => r.overall_success.getD false) +
      (wrapResults a).countP (fun r => !(r.overall_success.getD false)) =
      (wrapResults a).length ∧
    generate_report [] = none := by
  refine ⟨?_, ?_, rfl⟩
  · simp [generate_report_arg, generate_report, List.length_eq_zero, h]
  · have hc := (wrapResults a).length_eq_countP_add_countP
      (fun r => r.overall_success.getD false)
    simpa using hc.symm
/-- A concrete argument for the report: one passed test, one failed test and
one result dict lacking the `overall_success` key. -/
def sampleResults : ResultsArg :=
  ResultsArg.many
    [{ overall_success := some true }, { overall_success := some false },
     { overall_success := none }]

/-- Witness for C10 at a concrete three-element results list. -/
theorem generate_report_witness :
    wrapResults sampleResults ≠ [] ∧
    (generate_report_arg sampleResults = some
      { total_tests := (wrapResults sampleResults).length
      , passed_tests := (wrapResults sampleResults).countP
          (fun r => r.overall_success.getD false)
      , failed_tests := (wrapResults sampleResults).countP
          (fun r => !(r.overall_success.getD false))
      , test_details := wrapResults sampleResults } ∧
     (wrapResults sampleResults).countP
        (fun r => r.overall_success.getD false) +
       (wrapResults sampleResults).countP
        (fun r => !(r.overall_success.getD false)) =
       (wrapResults sampleResults).length ∧
     generate_report [] = none) :=
  ⟨by decide, generate_report_spec sampleResults (by decide)⟩

/-! ## C1: validation passes iff all required directories and files exist -/

/-- Claim C1: for every configuration and existing output directory,
`validation_passed` holds if and only if every required directory exists
inside the output directory and every required file exists at its checked
path (root of the output directory for the `.` key, the named
subdirectory otherwise); every optional file is recorded in the optional
found or missing list, and the optional section never affects
`validation_passed`. -/
theorem validate_outputs_passed_iff (cfg : Config) (fs : FS) (od : String)
    (h : fs.isDir od = true) :
    ((validate_outputs cfg fs od).validation_passed = true ↔
      ((∀ d ∈ cfg.required_directories, fs.isDir (osPathJoin od d) = true) ∧
       ∀ p ∈ filePairs cfg.required_files,
         fs.isFile (checkedFilePath od p.1 p.2) = true)) ∧
    (∀ q ∈ filePairs cfg.optional_files,
      (q.1 ++ "/" ++ q.2) ∈
          (validate_outputs cfg fs od).optional_files_found ∨
      (q.1 ++ "/" ++ q.2) ∈
          (validate_outputs cfg fs od).optional_files_missing) ∧
    (∀ optf,
      (validate_outputs { cfg with optional_files := optf } fs
          od).validation_passed =
        (validate_outputs cfg fs od).validation_passed) := by
  refine ⟨?_, ?_, ?_⟩
  · simp [validate_outputs, h, List.isEmpty_iff, List.filter_eq_nil_iff]
  · intro q hq
    by_cases hf : fs.isFile (checkedFilePath od q.1 q.2) = true
    · left
      simp only [validate_outputs, h, if_true, List.mem_map, List.mem_filter]
      exact ⟨q, ⟨hq, hf⟩, rfl⟩
    · right
      simp only [validate_outputs, h, if_true, List.mem_map, List.mem_filter]
      exact ⟨q, ⟨hq, by simp [hf]⟩, rfl⟩
  · intro optf
    simp [validate_outputs, h]

/-- A small configuration exercising the `.` key and a subdirectory. -/
def cfgSmall : Config :=
  { required_directories := ["mri"]
  , required_files := [("mri", ["norm.mgz"]), (".", ["mprage.nii.gz"])]
  , optional_files := [("mri", ["wm.mgz"])]
  , conditional_files := [] }

/-- A small file system containing the output tree of `cfgSmall`. -/
def fsSmall : FS :=
  { isDir := fun p => p = "/o" || p = "/o/mri"
  , isFile := fun p => p = "/o/mri/norm.mgz" || p = "/o/mprage.nii.gz" }

/-- Witness for C1 at a concrete configuration and file system. -/
theorem validate_outputs_passed_iff_witness :
    fsSmall.isDir "/o" = true ∧
    (((validate_outputs cfgSmall fsSmall "/o").validation_passed = true ↔
      ((∀ d ∈ cfgSmall.required_directories,
          fsSmall.isDir (osPathJoin "/o" d) = true) ∧
       ∀ p ∈ filePairs cfgSmall.required_files,
         fsSmall.isFile (checkedFilePath "/o" p.1 p.2) = true)) ∧
     (∀ q ∈ filePairs cfgSmall.optional_files,
       (q.1 ++ "/" ++ q.2) ∈
           (validate_outputs cfgSmall fsSmall "/o").optional_files_found ∨
       (q.1 ++ "/" ++ q.2) ∈
           (validate_outputs cfgSmall fsSmall "/o").optional_files_missing) ∧
     (∀ optf,
       (validate_outputs { cfgSmall with optional_files := optf } fsSmall
           "/o").validation_passed =
         (validate_outputs cfgSmall fsSmall "/o").validation_passed)) :=
  ⟨rfl, validate_outputs_passed_iff cfgSmall fsSmall "/o" rfl⟩

/-! ## Helper lemmas on paths and token lists -/

/-- The data of the one-character string holding an underscore. -/
lemma underscore_data : ("_" : String).data = ['_'] := rfl

/-- The data of the one-character string holding a separator. -/
lemma slash_data : ("/" : String).data = ['/'] := rfl

/-- The fold underlying `lastComponent` appends the remaining characters
when no separator occurs among them. -/
lemma lastComponent_foldl_no_slash (l : List Char) (acc : List Char)
    (h : '/' ∉ l) :
    l.foldl (fun acc c => if c = '/' then [] else acc ++ [c]) acc =
      acc ++ l := by
  induction l generalizing acc with
  | nil => simp
  | cons c cs ih =>
    simp only [List.mem_cons, not_or] at h
    rw [List.foldl_cons, if_neg (fun hc => h.1 hc.symm), ih (acc ++ [c]) h.2]
    simp

/-- The final path component of `a ++ "/" ++ b` is `b` when `b` holds no
separator. -/
lemma lastComponent_append (a b : String) (hb : '/' ∉ b.data) :
    lastComponent (a ++ "/" ++ b) = b := by
  unfold lastComponent
  have hd : (a ++ "/" ++ b).data = a.data ++ ('/' :: b.data) := by
    rw [String.data_append, String.data_append, slash_data,
      List.append_assoc, List.singleton_append]
  rw [hd, List.foldl_append, List.foldl_cons, if_pos rfl,
    lastComponent_foldl_no_slash b.data [] hb, List.nil_append]

/-- `osPathJoin` inserts a separator when the second component is not
absolute and the first is non-empty and does not end in a separator. -/
lemma osPathJoin_of (a b : String) (hb : b.data.head? ≠ some '/')
    (ha0 : a ≠ "") (haL : a.data.getLast? ≠ some '/') :
    osPathJoin a b = a ++ "/" ++ b := by
  unfold osPathJoin
  rw [if_neg hb, if_neg ha0, if_neg haL]

/-- Joining any working directory with the fixed base directory name yields
a path ending in the letter s. -/
lemma osPathJoin_base_getLast (cwd : String) :
    (osPathJoin cwd "infant_recon_outputs").data.getLast? = some 's' := by
  have hb : ¬ (("infant_recon_outputs" : String).data.head? = some '/') := by
    decide
  unfold osPathJoin
  rw [if_neg hb]
  by_cases h0 : cwd = ""
  · rw [if_pos h0]; decide
  · rw [if_neg h0]
    by_cases hL : cwd.data.getLast? = some '/'
    · rw [if_pos hL, String.data_append,
        List.getLast?_append_of_ne_nil _ (by decide)]
      decide
    · rw [if_neg hL, String.data_append, String.data_append,
        List.getLast?_append_of_ne_nil _ (by decide)]
      decide

/-- The joined base directory path is never the empty string. -/
lemma osPathJoin_base_ne_empty (cwd : String) :
    osPathJoin cwd "infant_recon_outputs" ≠ "" := by
  intro h
  have hl := osPathJoin_base_getLast cwd
  rw [h] at hl
  exact absurd hl (by decide)

/-- The joined base directory path does not end in a separator. -/
lemma osPathJoin_base_getLast_ne_slash (cwd : String) :
    (osPathJoin cwd "infant_recon_outputs").data.getLast? ≠ some '/' := by
  rw [osPathJoin_base_getLast]
  decide

/-- The unique directory name holds no separator when neither the subject
nor the timestamp does. -/
lemma unique_name_no_slash (sub ts : String) (hs : '/' ∉ sub.data)
    (ht : '/' ∉ ts.data) : '/' ∉ (sub ++ "_" ++ ts).data := by
  rw [String.data_append, String.data_append, underscore_data]
  intro hmem
  rcases List.mem_append.1 hmem with h1 | h2
  · rcases List.mem_append.1 h1 with h1a | h1b
    · exact hs h1a
    · simp at h1b
  · exact ht h2

/-- The unique directory name does not start with a separator when the
subject holds no separator. -/
lemma unique_name_head_ne_slash (sub ts : String) (hs : '/' ∉ sub.data) :
    (sub ++ "_" ++ ts).data.head? ≠ some '/' := by
  rw [String.data_append, String.data_append, underscore_data]
  cases hsd : sub.data with
  | nil => simp
  | cons c cs =>
    have hc : c ≠ '/' := by
      intro he
      exact hs (by rw [hsd, he]; exact List.mem_cons_self '/' cs)
    simp [List.cons_append]
    exact fun he => hc he

/-- The generated output directory is the base path, a separator, then the
unique name, whenever the unique name is separator-free. -/
lemma generate_unique_output_dir_eq (cmd ts cwd : String)
    (hs : '/' ∉ (subjectName cmd).data) :
    generate_unique_output_dir cmd ts cwd =
      osPathJoin cwd "infant_recon_outputs" ++ "/" ++
        (subjectName cmd ++ "_" ++ ts) := by
  unfold generate_unique_output_dir
  exact osPathJoin_of _ _ (unique_name_head_ne_slash _ _ hs)
    (osPathJoin_base_ne_empty cwd) (osPathJoin_base_getLast_ne_slash cwd)

/-- The branch of `modify_parts` when the flag is absent: it is appended
together with the directory. -/
lemma modify_parts_absent (cmd uniq : String)
    (h : "--outdir" ∉ pySplit cmd) :
    modify_parts cmd uniq = pySplit cmd ++ ["--outdir", uniq] := by
  simp [modify_parts, h]

/-- The branch of `modify_parts` when the first flag occurrence has a
successor token: that token is replaced by the directory. -/
lemma modify_parts_mid (cmd uniq : String) (h : "--outdir" ∈ pySplit cmd)
    (h2 : (pySplit cmd).indexOf "--outdir" + 1 < (pySplit cmd).length) :
    modify_parts cmd uniq =
      (pySplit cmd).set ((pySplit cmd).indexOf "--outdir" + 1) uniq := by
  simp [modify_parts, h, h2]

/-- The branch of `modify_parts` when the first flag occurrence is the last
token: the token list is left unchanged. -/
lemma modify_parts_trailing (cmd uniq : String)
    (h : "--outdir" ∈ pySplit cmd)
    (h2 : ¬ ((pySplit cmd).indexOf "--outdir" + 1 < (pySplit cmd).length)) :
    modify_parts cmd uniq = pySplit cmd := by
  simp [modify_parts, h, h2]

/-! ## C5: the generated output directory and the command rewrite -/

/-- Counterexample to claim C5 at the concrete command
`prog -s a/b --outdir` with timestamp `20240101_120000` and working
directory `/base`: the subject token is `a/b`, so the final path component
of the generated directory is `b_20240101_120000`, not
`<subject>_<timestamp>`; and since the only `--outdir` token is last, the
command is returned verbatim, so the generated directory is not made the
value of the `--outdir` option. -/
theorem run_command_output_dir_cex :
    subjectName "prog -s a/b --outdir" = "a/b" ∧
    lastComponent (generate_unique_output_dir "prog -s a/b --outdir"
        "20240101_120000" "/base") ≠
      subjectName "prog -s a/b --outdir" ++ "_" ++ "20240101_120000" ∧
    generate_unique_output_dir "prog -s a/b --outdir" "20240101_120000"
        "/base" = "/base/infant_recon_outputs/a/b_20240101_120000" ∧
    modify_command_for_unique_output "prog -s a/b --outdir"
        (generate_unique_output_dir "prog -s a/b --outdir"
          "20240101_120000" "/base") =
      "prog -s a/b --outdir" := by
  refine ⟨?_, ?_, ?_, ?_⟩ <;> decide

/-- Claim C5 as amended: for every command whose subject token (the token
after the first `-s`, or `unknown` when `-s` is absent or last) holds no
path separator, and every separator-free timestamp, `run_command` directs
outputs to the generated directory, whose final path component is
`<subject>_<timestamp>`; the rewritten command makes that directory the
token after the first `--outdir` — appending the flag when absent,
replacing the successor of its first occurrence when present — except
when the first `--outdir` is the last token, in which case the token list
is merely re-joined with single spaces. -/
theorem run_command_output_dir_spec (cmd ts cwd : String)
    (timeout elapsed : Nat) (proc : Nat → ProcOutcome)
    (hs : '/' ∉ (subjectName cmd).data) (ht : '/' ∉ ts.data) :
    (run_command cmd timeout ts cwd elapsed proc).1.output_directory =
      generate_unique_output_dir cmd ts cwd ∧
    (run_command cmd timeout ts cwd elapsed proc).1.command =
      modify_command_for_unique_output cmd
        (generate_unique_output_dir cmd ts cwd) ∧
    lastComponent (generate_unique_output_dir cmd ts cwd) =
      subjectName cmd ++ "_" ++ ts ∧
    ("-s" ∉ pySplit cmd → subjectName cmd = "unknown") ∧
    (∀ i, (pySplit cmd).indexOf? "-s" = some i →
      subjectName cmd = (pySplit cmd).getD (i + 1) "unknown") ∧
    ("--outdir" ∉ pySplit cmd →
      modify_parts cmd (generate_unique_output_dir cmd ts cwd) =
        pySplit cmd ++
          ["--outdir", generate_unique_output_dir cmd ts cwd]) ∧
    ("--outdir" ∈ pySplit cmd →
      (pySplit cmd).indexOf "--outdir" + 1 < (pySplit cmd).length →
      modify_parts cmd (generate_unique_output_dir cmd ts cwd) =
        (pySplit cmd).set ((pySplit cmd).indexOf "--outdir" + 1)
          (generate_unique_output_dir cmd ts cwd)) ∧
    ("--outdir" ∈ pySplit cmd →
      (pySplit cmd).indexOf "--outdir" + 1 = (pySplit cmd).length →
      modify_command_for_unique_output cmd
          (generate_unique_output_dir cmd ts cwd) =
        String.intercalate " " (pySplit cmd)) := by
  refine ⟨?_, ?_, ?_, ?_, ?_, ?_, ?_, ?_⟩
  · cases hp : proc 0 <;> simp [run_command, hp]
  · cases hp : proc 0 <;> simp [run_command, hp]
  · rw [generate_unique_output_dir_eq cmd ts cwd hs,
      lastComponent_append _ _ (unique_name_no_slash _ _ hs ht)]
  · intro hmem
    have hnone : (pySplit cmd).indexOf? "-s" = none :=
      List.indexOf?_eq_none_iff.2 (fun x hx hbeq =>
        hmem (by rwa [eq_of_beq hbeq] at hx))
    simp [subjectName, hnone]
  · intro i hi
    simp [subjectName, hi]
  · exact modify_parts_absent cmd _
  · exact modify_parts_mid cmd _
  · intro h1 h2
    have h3 : ¬ ((pySplit cmd).indexOf "--outdir" + 1 <
        (pySplit cmd).length) := by omega
    simp [modify_command_for_unique_output,
      modify_parts_trailing cmd _ h1 h3]

/-- Witness for C5 (amended) at a concrete command, timestamp, working
directory and a successful subprocess. -/
theorem run_command_output_dir_witness :
    '/' ∉ (subjectName "infant_recon_all -s sub-01 --age 18").data ∧
    '/' ∉ ("20240101_120000" : String).data ∧
    ((run_command "infant_recon_all -s sub-01 --age 18" 3600
        "20240101_120000" "/home/u" 5 procExit3).1.output_directory =
      generate_unique_output_dir "infant_recon_all -s sub-01 --age 18"
        "20240101_120000" "/home/u" ∧
     (run_command "infant_recon_all -s sub-01 --age 18" 3600
        "20240101_120000" "/home/u" 5 procExit3).1.command =
      modify_command_for_unique_output "infant_recon_all -s sub-01 --age 18"
        (generate_unique_output_dir "infant_recon_all -s sub-01 --age 18"
          "20240101_120000" "/home/u") ∧
     lastComponent (generate_unique_output_dir
        "infant_recon_all -s sub-01 --age 18" "20240101_120000"
        "/home/u") =
      subjectName "infant_recon_all -s sub-01 --age 18" ++ "_" ++
        "20240101_120000" ∧
     ("-s" ∉ pySplit "infant_recon_all -s sub-01 --age 18" →
       subjectName "infant_recon_all -s sub-01 --age 18" = "unknown") ∧
     (∀ i,
       (pySplit "infant_recon_all -s sub-01 --age 18").indexOf? "-s" =
          some i →
       subjectName "infant_recon_all -s sub-01 --age 18" =
         (pySplit "infant_recon_all -s sub-01 --age 18").getD (i + 1)
           "unknown") ∧
     ("--outdir" ∉ pySplit "infant_recon_all -s sub-01 --age 18" →
       modify_parts "infant_recon_all -s sub-01 --age 18"
          (generate_unique_output_dir "infant_recon_all -s sub-01 --age 18"
            "20240101_120000" "/home/u") =
         pySplit "infant_recon_all -s sub-01 --age 18" ++
           ["--outdir",
            generate_unique_output_dir "infant_recon_all -s sub-01 --age 18"
              "20240101_120000" "/home/u"]) ∧
     ("--outdir" ∈ pySplit "infant_recon_all -s sub-01 --age 18" →
       (pySplit "infant_recon_all -s sub-01 --age 18").indexOf "--outdir" +
           1 <
         (pySplit "infant_recon_all -s sub-01 --age 18").length →
       modify_parts "infant_recon_all -s sub-01 --age 18"
          (generate_unique_output_dir "infant_recon_all -s sub-01 --age 18"
            "20240101_120000" "/home/u") =
         (pySplit "infant_recon_all -s sub-01 --age 18").set
           ((pySplit "infant_recon_all -s sub-01 --age 18").indexOf
              "--outdir" + 1)
           (generate_unique_output_dir "infant_recon_all -s sub-01 --age 18"
             "20240101_120000" "/home/u")) ∧
     ("--outdir" ∈ pySplit "infant_recon_all -s sub-01 --age 18" →
       (pySplit "infant_recon_all -s sub-01 --age 18").indexOf "--outdir" +
           1 =
         (pySplit "infant_recon_all -s sub-01 --age 18").length →
       modify_command_for_unique_output "infant_recon_all -s sub-01 --age 18"
          (generate_unique_output_dir "infant_recon_all -s sub-01 --age 18"
            "20240101_120000" "/home/u") =
         String.intercalate " "
           (pySplit "infant_recon_all -s sub-01 --age 18"))) :=
  ⟨by decide, by decide,
   run_command_output_dir_spec "infant_recon_all -s sub-01 --age 18"
     "20240101_120000" "/home/u" 3600 5 procExit3 (by decide) (by decide)⟩

/-! ## C9: a trailing --outdir flag -/

/-- Counterexample to claim C9 at the concrete command
`run -s x --outdir old --outdir`, whose whitespace-token list ends with
`--outdir`: the first occurrence of the flag is not last, so its successor
token is replaced and the returned command does contain the generated
directory path. -/
theorem modify_command_trailing_outdir_cex :
    (pySplit "run -s x --outdir old --outdir").getLast? =
      some "--outdir" ∧
    modify_parts "run -s x --outdir old --outdir" "/o/d" ≠
      pySplit "run -s x --outdir old --outdir" ∧
    "/o/d" ∈ modify_parts "run -s x --outdir old --outdir" "/o/d" ∧
    modify_command_for_unique_output "run -s x --outdir old --outdir"
        "/o/d" =
      "run -s x --outdir /o/d --outdir" := by
  refine ⟨?_, ?_, ?_, ?_⟩ <;> decide

/-- Claim C9 as amended: for every command string in which the first
occurrence of `--outdir` in the whitespace-token list is the last token,
`modify_command_for_unique_output` returns the tokens re-joined with
single spaces, leaving the token list unchanged and inserting the unique
output directory nowhere. -/
theorem modify_command_trailing_outdir_spec (cmd uniq : String)
    (h1 : "--outdir" ∈ pySplit cmd)
    (h2 : (pySplit cmd).indexOf "--outdir" + 1 = (pySplit cmd).length) :
    modify_parts cmd uniq = pySplit cmd ∧
    modify_command_for_unique_output cmd uniq =
      String.intercalate " " (pySplit cmd) ∧
    (uniq ∉ pySplit cmd → uniq ∉ modify_parts cmd uniq) := by
  have h3 : ¬ ((pySplit cmd).indexOf "--outdir" + 1 <
      (pySplit cmd).length) := by omega
  have h4 := modify_parts_trailing cmd uniq h1 h3
  refine ⟨h4, ?_, ?_⟩
  · simp [modify_command_for_unique_output, h4]
  · intro hn
    rw [h4]
    exact hn

/-- Witness for C9 (amended) at a concrete command ending in `--outdir`. -/
theorem modify_command_trailing_outdir_witness :
    "--outdir" ∈ pySplit "prog -s s1 --outdir" ∧
    (pySplit "prog -s s1 --outdir").indexOf "--outdir" + 1 =
      (pySplit "prog -s s1 --outdir").length ∧
    (modify_parts "prog -s s1 --outdir" "/x/y" =
        pySplit "prog -s s1 --outdir" ∧
     modify_command_for_unique_output "prog -s s1 --outdir" "/x/y" =
        String.intercalate " " (pySplit "prog -s s1 --outdir") ∧
     ("/x/y" ∉ pySplit "prog -s s1 --outdir" →
        "/x/y" ∉ modify_parts "prog -s s1 --outdir" "/x/y")) :=
  ⟨by decide, by decide,
   modify_command_trailing_outdir_spec "prog -s s1 --outdir" "/x/y"
     (by decide) (by decide)⟩
